import Mathlib

/-!
Verification development for the slack-hi5 webhook (src/yelp.go).

The Go source is shallowly embedded below.  Strings are Lean `String`s
(lists of characters); Go `float64` arithmetic on the radius is modelled
exactly over `Rat` (the one constant 0.00062137 and the values the claims
exercise are all small decimals, where the float computation and the exact
rational computation truncate to the same integer); Go `int` is `Int`.
Fallible Go functions returning `(T, error)` become `Except String T`.
The deployment targets the go113 runtime (see src/Makefile), so
`url.ParseQuery` is embedded with its pre-Go-1.17 behaviour: both `&` and
`;` separate key/value pairs and a semicolon is not an error.
-/

namespace Hi5

/-- Go `unicode.IsSpace` restricted to the Latin-1 range, which is what
`strings.TrimSpace` tests for command texts: space, tab, newline, vertical
tab, form feed, carriage return, NEL and NBSP. -/
def isGoSpace (c : Char) : Bool :=
  c = ' ' || c = '\t' || c = '\n' || c = '\x0b' || c = '\x0c' || c = '\r' ||
  c = '\u0085' || c = ' '

/-- Go `strings.TrimSpace`: drop leading and trailing white space. -/
def trimSpace (s : String) : String :=
  String.mk (((s.data.dropWhile isGoSpace).reverse.dropWhile isGoSpace).reverse)

/-- Go `strings.ToLower` on the ASCII range (the only range the source
compares against, namely the literal "help"). -/
def lowerStr (s : String) : String :=
  String.mk (s.data.map Char.toLower)

/-- Value of a hexadecimal digit, `none` when the character is not one. -/
def hexVal (c : Char) : Option Nat :=
  if '0' ≤ c ∧ c ≤ '9' then some (c.toNat - '0'.toNat)
  else if 'a' ≤ c ∧ c ≤ 'f' then some (c.toNat - 'a'.toNat + 10)
  else if 'A' ≤ c ∧ c ≤ 'F' then some (c.toNat - 'A'.toNat + 10)
  else none

/-- The message of Go `url.EscapeError` (strconv.Quote is modelled as plain
double quoting; no claim inspects these messages). -/
def escapeErr (s : List Char) : String :=
  "invalid URL escape \"" ++ String.mk s ++ "\""

/-- Go `url.QueryUnescape`: `+` becomes space, `%XX` becomes the character
with that code, a `%` not followed by two hex digits is an escape error
carrying up to three characters from the failure point. -/
def queryUnescape : List Char → Except String (List Char)
  | [] => .ok []
  | '%' :: a :: b :: rest =>
    match hexVal a, hexVal b with
    | some ha, some hb => (queryUnescape rest).map (fun l => Char.ofNat (ha * 16 + hb) :: l)
    | _, _ => .error (escapeErr ['%', a, b])
  | ['%', a] => .error (escapeErr ['%', a])
  | ['%'] => .error (escapeErr ['%'])
  | '+' :: rest => (queryUnescape rest).map (fun l => ' ' :: l)
  | c :: rest => (queryUnescape rest).map (fun l => c :: l)

/-- Decoded form values in insertion order.  Go's `url.Values` is a map from
key to list of values; `Get` only ever reads the first value stored for a
key, so an ordered association list is an equivalent embedding. -/
abbrev Values := List (String × String)

/-- Go `url.Values.Get`: first value recorded for the key, `""` if absent. -/
def getValue (vs : Values) (k : String) : String :=
  match vs.find? (fun p => p.1 = k) with
  | some p => p.2
  | none => ""

/-- Split a query string at every `&` or `;` (both are separators in the
go113 `url.ParseQuery`). -/
def splitSeps : List Char → List (List Char)
  | [] => [[]]
  | c :: rest =>
    if c = '&' ∨ c = ';' then [] :: splitSeps rest
    else
      match splitSeps rest with
      | [] => [[c]]
      | seg :: segs => (c :: seg) :: segs

/-- Go `strings.Cut` on `=` inside one segment: key before the first `=`,
value after it, value `""` when there is no `=`. -/
def cutEq : List Char → List Char × List Char
  | [] => ([], [])
  | '=' :: rest => ([], rest)
  | c :: rest => let p := cutEq rest; (c :: p.1, p.2)

/-- One step of Go `url.parseQuery`: skip empty segments, unescape key and
value, record the pair; the first unescape error is remembered and the pair
dropped, parsing of later segments continues. -/
def procSegment (st : Values × Option String) (seg : List Char) : Values × Option String :=
  if seg = [] then st
  else
    let kv := cutEq seg
    match queryUnescape kv.1 with
    | .error e => (st.1, st.2 <|> some e)
    | .ok k =>
      match queryUnescape kv.2 with
      | .error e => (st.1, st.2 <|> some e)
      | .ok v => (st.1 ++ [(String.mk k, String.mk v)], st.2)

/-- Go `url.ParseQuery` (go113): split on separators, decode each pair; the
call in the source discards the partially filled map whenever any error was
recorded, so the embedding returns `Except`. -/
def parseQueryGo (s : String) : Except String Values :=
  let st := (splitSeps s.data).foldl procSegment ([], none)
  match st.2 with
  | some e => .error e
  | none => .ok st.1

/-- Numeric value of a list of decimal digits. -/
def digitsVal (ds : List Char) : Nat :=
  ds.foldl (fun acc c => acc * 10 + (c.toNat - '0'.toNat)) 0

/-- Go `strconv.ParseFloat`, embedded exactly over `Rat` on the decimal
grammar `[+-] digits [. digits] [eE [+-] digits]` with at least one mantissa
digit (the special forms Inf/NaN/hex/underscores are omitted; no claim and
no reachable command text in this code base depends on them). -/
def parseFloatQ (s : String) : Option Rat :=
  let step1 : Rat × List Char :=
    match s.data with
    | '+' :: r => (1, r)
    | '-' :: r => (-1, r)
    | r => (1, r)
  let sign := step1.1
  let ip := step1.2.takeWhile Char.isDigit
  let afterIp := step1.2.dropWhile Char.isDigit
  let step2 : Option (List Char) × List Char :=
    match afterIp with
    | '.' :: r => (some (r.takeWhile Char.isDigit), r.dropWhile Char.isDigit)
    | r => (none, r)
  let fp := step2.1
  let rest := step2.2
  if ip = [] ∧ (fp = none ∨ fp = some []) then none
  else
    let mant : Rat :=
      (digitsVal ip : Rat) +
        (match fp with
          | some d => (digitsVal d : Rat) / ((10 : Rat) ^ d.length)
          | none => 0)
    match rest with
    | [] => some (sign * mant)
    | e :: r =>
      if e = 'e' ∨ e = 'E' then
        let step3 : Int × List Char :=
          match r with
          | '+' :: r2 => (1, r2)
          | '-' :: r2 => (-1, r2)
          | r2 => (1, r2)
        let ed := step3.2.takeWhile Char.isDigit
        let rest2 := step3.2.dropWhile Char.isDigit
        if ed = [] ∨ rest2 ≠ [] then none
        else some (sign * mant * (10 : Rat) ^ (step3.1 * (digitsVal ed : Int)))
      else none

/-- The struct `Params` of the source; Go zero values are the field
defaults, exactly as a partial struct literal leaves them in Go. -/
structure Params where
  token : String := ""
  responseURL : String := ""
  location : String := ""
  radius : Int := 0
  userName : String := ""
  category : String := ""
  searchTerm : String := ""
  help : Bool := false
deriving DecidableEq, Repr

/-- The float64 constant `0.00062137` of the source, as an exact rational. -/
def milesFactor : Rat := 62137 / 100000000

/-- Go's `int(x)` conversion from float: truncation toward zero. -/
def ratTrunc (q : Rat) : Int := if 0 ≤ q then ⌊q⌋ else ⌈q⌉

/-- The radius conversion on line 249 of the source:
`radius := int(radiusMi / 0.00062137)`. -/
def milesToMeters (mi : Rat) : Int := ratTrunc (mi / milesFactor)

/-- Lines 227-234 of the source: radius defaults to 5 miles; a present,
parseable `radius` value overrides it, an unparseable one is ignored. -/
def effRadiusMi (q : Values) : Rat :=
  if getValue q "radius" ≠ "" then
    match parseFloatQ (getValue q "radius") with
    | some r => r
    | none => 5
  else 5

/-- Body of `parseParams` after the four outer `Get`s (lines 216-258):
trim, detect "help", parse the inner query string, validate radius then
location then category, build the `Params`. -/
def parseParamsText (token responseURL userName text0 : String) : Except String Params :=
  let text := trimSpace text0
  if lowerStr text = "help" then .ok { help := true, token := token }
  else
    match parseQueryGo text with
    | .error e => .error e
    | .ok q =>
      if effRadiusMi q > 24 then .error "Maximum radius is 24 miles"
      else if getValue q "location" = "" then .error "You must specify a location"
      else if getValue q "category" = "" then .error "You must specify a category"
      else .ok
        { token := token
          responseURL := responseURL
          userName := userName
          location := getValue q "location"
          category := lowerStr (getValue q "category")
          searchTerm := getValue q "term"
          radius := milesToMeters (effRadiusMi q) }

/-- `parseParams` (lines 210-259): read `token`, `response_url`,
`user_name` and `text` from the decoded form body and interpret the text. -/
def parseParams (vals : Values) : Except String Params :=
  parseParamsText (getValue vals "token") (getValue vals "response_url")
    (getValue vals "user_name") (getValue vals "text")

/-- The struct `TextBlock` of the source. -/
structure TextBlock where
  type : String
  text : String
deriving DecidableEq, Repr

/-- The struct `AccessoryBlock` of the source. -/
structure AccessoryBlock where
  type : String
  imageURL : String
  altText : String
deriving DecidableEq, Repr

/-- The struct `Block` of the source; the two pointer fields become
options, `none` standing for Go's nil. -/
structure Block where
  type : String
  text : Option TextBlock := none
  accessory : Option AccessoryBlock := none
deriving DecidableEq, Repr

/-- The struct `SlackMessage` of the source. -/
structure SlackMessage where
  responseType : String
  blocks : List Block
deriving DecidableEq, Repr

/-- The struct `Business` of the source; the float32 rating is modelled as
an exact rational, the nested location struct is flattened into its single
field. -/
structure Business where
  name : String := ""
  imageURL : String := ""
  url : String := ""
  reviewCount : Int := 0
  price : String := ""
  rating : Rat := 0
  displayAddress : List String := []
deriving DecidableEq, Repr

/-- Rounding to the nearest integer with ties to even, the rule Go's
`fmt` package applies when printing with `%.1f`. -/
def roundHalfEven (q : Rat) : Int :=
  let f := ⌊q⌋
  if q - f < 1 / 2 then f
  else if q - f > 1 / 2 then f + 1
  else if f % 2 = 0 then f else f + 1

/-- Go `fmt.Sprintf "%.1f"` on the (exactly represented) rating: one digit
after the decimal point, nearest-ties-to-even. -/
def fmtRat1 (r : Rat) : String :=
  let n := roundHalfEven (r * 10)
  (if n < 0 then "-" else "") ++
    toString (n.natAbs / 10) ++ "." ++ toString (n.natAbs % 10)

/-- The header message of `buildBusinessBlocks` (lines 104-108): user name,
category, the search term when non-empty, and location. -/
def headerMsg (p : Params) : String :=
  let m := "*Ok @" ++ p.userName ++ " here\x27s a Hi-5 for " ++ p.category
  let m := if p.searchTerm ≠ "" then m ++ " and " ++ p.searchTerm else m
  m ++ " near " ++ p.location ++ "*"

/-- The per-business text of `buildBusinessBlocks` (lines 119-127): bold
name and price tier, rating to one decimal, review count, joined address
lines, then the business URL. -/
def businessText (b : Business) : String :=
  "*" ++ b.name ++ " " ++ b.price ++ ":* " ++ fmtRat1 b.rating ++ " ⭐ (" ++
    toString b.reviewCount ++ " reviews)\n" ++
    String.intercalate " " b.displayAddress ++ "\n\n" ++ b.url

/-- The block appended for one business (lines 128-134): a section with the
business text and an image accessory with the fixed alt text. -/
def businessBlock (b : Business) : Block :=
  { type := "section"
    text := some { type := "mrkdwn", text := businessText b }
    accessory := some { type := "image", imageURL := b.imageURL, altText := "alt text" } }

/-- `buildBusinessBlocks` (lines 101-137): header section, divider, then
one section per business in the order the list was returned. -/
def buildBusinessBlocks (p : Params) (businesses : List Business) : List Block :=
  [ { type := "section", text := some { type := "mrkdwn", text := headerMsg p } },
    { type := "divider" } ] ++ businesses.map businessBlock

/-- The not-found message of `postNotFound` (lines 142-147). -/
def notFoundMsg (p : Params) : String :=
  "*Sorry we couldn\x27t find any results for " ++ p.category ++ " in " ++
    p.location ++ ". Try increasing your search radius*"

/-- The block list `postNotFound` publishes (lines 148-156): one section. -/
def notFoundBlocks (p : Params) : List Block :=
  [ { type := "section", text := some { type := "mrkdwn", text := notFoundMsg p } } ]

/-- The JSON body `postToSlack` serialises and POSTs (lines 79-82). -/
def slackMessageFor (blocks : List Block) : SlackMessage :=
  { responseType := "in_channel", blocks := blocks }

/-- The query parameters `getYelpResults` adds to the search request
(lines 167-176); `q.Encode()` only reorders them by key. -/
def yelpQueryParams (p : Params) : List (String × String) :=
  [ ("location", p.location), ("radius", toString p.radius),
    ("categories", p.category), ("limit", "5"), ("sort_by", "rating") ] ++
  (if p.searchTerm ≠ "" then [("term", p.searchTerm)] else [])

/-- The help text `printHelp` writes into the HTTP response (lines 195-208). -/
def helpMsg : String :=
  "*Hi5 helps you find the top 5 rated businesses in a specified category and location.*\n" ++
  "You can find the list of supported categories here: https://www.yelp.com/developers/documentation/v3/all_category_list" ++
  "\n\n```\n" ++
  "Usage: /hi5 category=<category>&location=<city,state|zip>&[options]\n\n" ++
  "Options: key=value\n" ++
  "term:   additional search term to narrow your category results\n" ++
  "radius: radius in miles for the search area (maximum is 24)\n\n" ++
  "Example: Find top 5 rated pizza places in Los Angeles that serve beer\n" ++
  "/hi5 category=pizza&location=los angeles,ca&term=beer&radius=10\n" ++
  "\n```"

/-- One inbound request to the handler together with the outcomes the two
outbound calls would have: the result of the Yelp search and whether the
POST to the callback URL succeeds.  `body = none` models a failing body
read. -/
structure HandlerInput where
  method : String := "POST"
  body : Option String := some ""
  slackToken : String := ""
  searchResult : Except Unit (List Business) := .ok []
  publishOk : Bool := true

/-- Everything the handler observably does: the explicit `WriteHeader`
status if any, the strings written to the response body, whether the Yelp
search endpoint was called, and every message POSTed to a callback URL
(attempted publishes included). -/
structure HandlerOutput where
  status : Option Nat := none
  body : List String := []
  searchCalled : Bool := false
  published : List (String × SlackMessage) := []
deriving DecidableEq, Repr

/-- Go `http.Error`: status code, then the message on its own line. -/
def httpError (msg : String) (code : Nat) : HandlerOutput :=
  { status := some code, body := [msg ++ "\n"] }

/-- The exported handler `Yelp` (lines 261-329): CORS preflight, body read,
outer form decode, `parseParams`, the shared-secret check, the early OK
acknowledgment, then help / search / publish.  A missing explicit status
(`status = none`) models Go's implicit 200 on first write or return. -/
def Yelp (inp : HandlerInput) : HandlerOutput :=
  if inp.method = "OPTIONS" then { status := some 204 }
  else
    match inp.body with
    | none => httpError "Bad request" 400
    | some bodyStr =>
      match parseQueryGo bodyStr with
      | .error _ => httpError "Bad request" 400
      | .ok bodyValues =>
        match parseParams bodyValues with
        | .error e => { status := some 200, body := [e] }
        | .ok params =>
          if params.token ≠ inp.slackToken then {}
          else if params.help then { status := some 200, body := [helpMsg] }
          else
            match inp.searchResult with
            | .error _ =>
              { status := some 200, body := ["Internal Server Error"], searchCalled := true }
            | .ok businesses =>
              if businesses = [] then
                { status := some 200
                  searchCalled := true
                  published := [(params.responseURL, slackMessageFor (notFoundBlocks params))]
                  body := if inp.publishOk then [] else ["Internal Server Error"] }
              else
                { status := some 200
                  searchCalled := true
                  published := [(params.responseURL,
                    slackMessageFor (buildBusinessBlocks params businesses))]
                  body := if inp.publishOk then [] else ["Internal Server Error"] }

/-! ### Characterisation lemmas for `parseParams` -/

/-- Help path of `parseParamsText` (lines 218-220): only `Help` and `Token`
are set, every other field keeps its Go zero value. -/
theorem parseParamsText_help (token url user text : String)
    (h : lowerStr (trimSpace text) = "help") :
    parseParamsText token url user text = .ok { help := true, token := token } := by
  simp [parseParamsText, h]

/-- Success path of `parseParamsText` (lines 250-258). -/
theorem parseParamsText_ok (token url user text : String) (q : Values)
    (hh : lowerStr (trimSpace text) ≠ "help")
    (hq : parseQueryGo (trimSpace text) = .ok q)
    (hr : ¬ effRadiusMi q > 24)
    (hl : getValue q "location" ≠ "")
    (hc : getValue q "category" ≠ "") :
    parseParamsText token url user text = .ok
      { token := token, responseURL := url, userName := user,
        location := getValue q "location",
        category := lowerStr (getValue q "category"),
        searchTerm := getValue q "term",
        radius := milesToMeters (effRadiusMi q) } := by
  simp [parseParamsText, hh, hq, hr, hl, hc]

/-- Radius validation of `parseParamsText` (lines 236-238): checked before
location and category. -/
theorem parseParamsText_radius_err (token url user text : String) (q : Values)
    (hh : lowerStr (trimSpace text) ≠ "help")
    (hq : parseQueryGo (trimSpace text) = .ok q)
    (hr : effRadiusMi q > 24) :
    parseParamsText token url user text = .error "Maximum radius is 24 miles" := by
  simp [parseParamsText, hh, hq, hr]

/-- Location validation of `parseParamsText` (lines 240-242): reached only
when the radius check passed. -/
theorem parseParamsText_loc_err (token url user text : String) (q : Values)
    (hh : lowerStr (trimSpace text) ≠ "help")
    (hq : parseQueryGo (trimSpace text) = .ok q)
    (hr : ¬ effRadiusMi q > 24)
    (hl : getValue q "location" = "") :
    parseParamsText token url user text = .error "You must specify a location" := by
  simp [parseParamsText, hh, hq, hr, hl]

/-- Truncation toward zero is monotone. -/
theorem ratTrunc_mono {a b : Rat} (h : a ≤ b) : ratTrunc a ≤ ratTrunc b := by
  unfold ratTrunc
  by_cases ha : 0 ≤ a
  · have hb : 0 ≤ b := le_trans ha h
    simp only [ha, hb, if_true]
    exact Int.floor_le_floor h
  · by_cases hb : 0 ≤ b
    · simp only [ha, hb, if_true, if_false]
      calc ⌈a⌉ ≤ 0 := Int.ceil_le.mpr (by exact_mod_cast le_of_not_le ha)
        _ ≤ ⌊b⌋ := Int.le_floor.mpr (by exact_mod_cast hb)
    · simp only [ha, hb, if_false]
      exact Int.ceil_le_ceil h

/-! ### Claims -/

/-- Claim C1, counterexample.  The claim says a command text without a
location always fails with exactly the message "You must specify a
location."  The code checks the radius bound first, so the text "radius=30"
(location absent) fails with the radius message instead; and even the
location message itself carries no trailing period. -/
theorem c1_counterexample :
    parseParams [("text", "radius=30")] = .error "Maximum radius is 24 miles" ∧
    parseParams [("text", "category=pizza")] = .error "You must specify a location" ∧
    "Maximum radius is 24 miles" ≠ "You must specify a location." ∧
    "You must specify a location" ≠ "You must specify a location." := by
  refine ⟨by with_unfolding_all rfl, by with_unfolding_all rfl, by decide, by decide⟩

/-- Claim C1, amended.  For every command text whose trimmed form is not
(case-insensitively) "help", that parses as a query string, whose radius
(when present and numeric) is at most 24 miles, and whose location key is
absent or empty, `parseParams` fails with exactly "You must specify a
location" (no trailing period). -/
theorem c1_location_error (vals q : Values)
    (hh : lowerStr (trimSpace (getValue vals "text")) ≠ "help")
    (hq : parseQueryGo (trimSpace (getValue vals "text")) = .ok q)
    (hr : effRadiusMi q ≤ 24)
    (hl : getValue q "location" = "") :
    parseParams vals = .error "You must specify a location" := by
  unfold parseParams
  exact parseParamsText_loc_err _ _ _ _ q hh hq (not_lt.mpr hr) hl

/-- Claim C1, witness: the text "radius=3" has no location key and fails
with the location message. -/
theorem c1_witness :
    parseParams [("text", "radius=3")] = .error "You must specify a location" :=
  c1_location_error [("text", "radius=3")] [("radius", "3")]
    (by decide) (by with_unfolding_all rfl)
    (of_decide_eq_true (by with_unfolding_all rfl)) (by with_unfolding_all rfl)

/-- Claim C2, counterexample.  The radius error message in the code has no
trailing period, so it is not exactly the claimed "Maximum radius is 24
miles." -/
theorem c2_counterexample :
    parseParams [("text", "radius=25")] = .error "Maximum radius is 24 miles" ∧
    "Maximum radius is 24 miles" ≠ "Maximum radius is 24 miles." :=
  ⟨by with_unfolding_all rfl, by decide⟩

/-- Claim C2, amended.  For every command text (not "help", parsing as a
query string) whose radius value parses as a number greater than 24,
`parseParams` fails with exactly "Maximum radius is 24 miles" (no trailing
period); and when the radius value is present but not numeric, the radius
silently defaults to 5 miles and parsing proceeds (succeeding whenever
location and category are non-empty, with the 5-mile radius in meters). -/
theorem c2_radius_rules :
    (∀ (vals q : Values) (r : Rat),
      lowerStr (trimSpace (getValue vals "text")) ≠ "help" →
      parseQueryGo (trimSpace (getValue vals "text")) = .ok q →
      getValue q "radius" ≠ "" →
      parseFloatQ (getValue q "radius") = some r →
      r > 24 →
      parseParams vals = .error "Maximum radius is 24 miles") ∧
    (∀ (vals q : Values),
      lowerStr (trimSpace (getValue vals "text")) ≠ "help" →
      parseQueryGo (trimSpace (getValue vals "text")) = .ok q →
      getValue q "radius" ≠ "" →
      parseFloatQ (getValue q "radius") = none →
      getValue q "location" ≠ "" →
      getValue q "category" ≠ "" →
      parseParams vals = .ok
        { token := getValue vals "token",
          responseURL := getValue vals "response_url",
          userName := getValue vals "user_name",
          location := getValue q "location",
          category := lowerStr (getValue q "category"),
          searchTerm := getValue q "term",
          radius := milesToMeters 5 }) := by
  constructor
  · intro vals q r hh hq hrad hpf hgt
    have he : effRadiusMi q = r := by simp [effRadiusMi, hrad, hpf]
    unfold parseParams
    exact parseParamsText_radius_err _ _ _ _ q hh hq (he ▸ hgt)
  · intro vals q hh hq hrad hpf hl hc
    have he : effRadiusMi q = 5 := by simp [effRadiusMi, hrad, hpf]
    have hr : ¬ effRadiusMi q > 24 := by rw [he]; norm_num
    have h := parseParamsText_ok (getValue vals "token") (getValue vals "response_url")
      (getValue vals "user_name") (getValue vals "text") q hh hq hr hl hc
    rw [he] at h
    exact h

/-- Claim C2, witness: radius 30 trips the bound; a non-numeric radius
falls back to 5 miles, which converts to 8046 meters. -/
theorem c2_witness :
    parseParams [("text", "radius=30")] = .error "Maximum radius is 24 miles" ∧
    parseParams [("text", "category=a&location=b&radius=xyz")] = .ok
      { token := "", responseURL := "", userName := "",
        location := "b", category := "a", searchTerm := "",
        radius := milesToMeters 5 } :=
  ⟨c2_radius_rules.1 [("text", "radius=30")] [("radius", "30")] 30
      (by decide) (by with_unfolding_all rfl) (by decide) (by with_unfolding_all rfl)
      (of_decide_eq_true (by with_unfolding_all rfl)),
   c2_radius_rules.2 [("text", "category=a&location=b&radius=xyz")]
      [("category", "a"), ("location", "b"), ("radius", "xyz")]
      (by decide) (by with_unfolding_all rfl) (by decide) (by with_unfolding_all rfl)
      (by decide) (by decide)⟩

/-- Claim C3, counterexample.  On the help path `parseParams` builds
`Params{Help: true, Token: token}` and drops the inbound callback URL: a
request with response_url "U" and text "help" yields a Query whose
responseURL is "", not "U". -/
theorem c3_counterexample :
    (parseParams [("token", "t"), ("response_url", "U"), ("text", "help")]).map
      Params.responseURL = .ok "" ∧ ("" : String) ≠ "U" :=
  ⟨by with_unfolding_all rfl, by decide⟩

/-- Claim C3, amended.  The inbound token is carried through unchanged on
both paths; the callback URL is carried through unchanged on the non-help
path only, while the help path leaves it empty regardless of the inbound
value. -/
theorem c3_token_url_passthrough :
    (∀ (token url user text : String),
      lowerStr (trimSpace text) = "help" →
      parseParamsText token url user text = .ok { help := true, token := token } ∧
      Params.responseURL { help := true, token := token } = "") ∧
    (∀ (token url user text : String) (q : Values),
      lowerStr (trimSpace text) ≠ "help" →
      parseQueryGo (trimSpace text) = .ok q →
      ¬ effRadiusMi q > 24 →
      getValue q "location" ≠ "" →
      getValue q "category" ≠ "" →
      parseParamsText token url user text = .ok
        { token := token, responseURL := url, userName := user,
          location := getValue q "location",
          category := lowerStr (getValue q "category"),
          searchTerm := getValue q "term",
          radius := milesToMeters (effRadiusMi q) }) :=
  ⟨fun token url user text h => ⟨parseParamsText_help token url user text h, rfl⟩,
   fun token url user text q hh hq hr hl hc =>
     parseParamsText_ok token url user text q hh hq hr hl hc⟩

/-- Claim C3, witness: the help path keeps token "t" and empties the URL;
the non-help path keeps both token "t" and URL "U". -/
theorem c3_witness :
    (parseParamsText "t" "U" "u" "help" = .ok { help := true, token := "t" } ∧
      Params.responseURL { help := true, token := "t" } = "") ∧
    parseParamsText "t" "U" "u" "category=a&location=b" = .ok
      { token := "t", responseURL := "U", userName := "u",
        location := "b", category := "a", searchTerm := "",
        radius := milesToMeters (effRadiusMi [("category", "a"), ("location", "b")]) } :=
  ⟨c3_token_url_passthrough.1 "t" "U" "u" "help" (by decide),
   c3_token_url_passthrough.2 "t" "U" "u" "category=a&location=b"
     [("category", "a"), ("location", "b")] (by decide) (by with_unfolding_all rfl)
     (of_decide_eq_true (by with_unfolding_all rfl)) (by decide) (by decide)⟩

/-- Claim C4.  For 1 to 5 businesses (the bound the search request asks
for), the payload is exactly the header section, a divider, then one
section per business in returned order, 2+N blocks in all; every business
block is a section carrying an image accessory with that business's image
URL and the fixed alt text. -/
theorem c4_blocks (p : Params) (bs : List Business)
    (h1 : 1 ≤ bs.length) (h2 : bs.length ≤ 5) :
    buildBusinessBlocks p bs =
      { type := "section", text := some { type := "mrkdwn", text := headerMsg p } } ::
      { type := "divider" } :: bs.map businessBlock ∧
    (buildBusinessBlocks p bs).length = 2 + bs.length ∧
    ∀ b : Business, (businessBlock b).type = "section" ∧
      (businessBlock b).accessory =
        some { type := "image", imageURL := b.imageURL, altText := "alt text" } := by
  refine ⟨rfl, ?_, fun b => ⟨rfl, rfl⟩⟩
  simp [buildBusinessBlocks]
  omega

/-- Claim C4, witness: one concrete business gives 2+1 blocks. -/
theorem c4_witness :
    (buildBusinessBlocks { userName := "u", category := "pizza", location := "la" }
      [{ name := "A", imageURL := "img", url := "http url", reviewCount := 2,
         price := "$$", rating := 9 / 2, displayAddress := ["x", "y"] }]).length = 2 + 1 :=
  (c4_blocks { userName := "u", category := "pizza", location := "la" }
    [{ name := "A", imageURL := "img", url := "http url", reviewCount := 2,
       price := "$$", rating := 9 / 2, displayAddress := ["x", "y"] }]
    (by decide) (by decide)).2.1

/-- Claim C5.  With zero businesses the payload `postNotFound` publishes is
exactly one section block, no divider and no business sections, and its
text is the not-found message with category and location substituted (the
code brackets the message in mrkdwn bold asterisks). -/
theorem c5_not_found (p : Params) :
    notFoundBlocks p =
      [ { type := "section",
          text := some { type := "mrkdwn", text :=
            "*Sorry we couldn\x27t find any results for " ++ p.category ++ " in " ++
              p.location ++ ". Try increasing your search radius*" },
          accessory := none } ] ∧
    (notFoundBlocks p).length = 1 :=
  ⟨rfl, rfl⟩

/-- Claim C6.  Any command text whose trimmed form case-insensitively
equals "help" yields the help-flagged Query with the inbound token, and no
further parsing happens: the result is success for every such text, so no
validation error is possible on this path. -/
theorem c6_help (vals : Values)
    (h : lowerStr (trimSpace (getValue vals "text")) = "help") :
    parseParams vals = .ok { help := true, token := getValue vals "token" } := by
  unfold parseParams
  exact parseParamsText_help _ _ _ _ h

/-- Claim C6, witness: "  HeLp " (mixed case, surrounding whitespace). -/
theorem c6_witness :
    lowerStr (trimSpace (getValue [("token", "tok"), ("text", "  HeLp ")] "text")) = "help" ∧
    parseParams [("token", "tok"), ("text", "  HeLp ")] = .ok { help := true, token := "tok" } :=
  ⟨by decide, c6_help [("token", "tok"), ("text", "  HeLp ")] (by decide)⟩

/-- Claim C7.  On the successful non-help path the parsed category is the
input category lower-cased (character by character, so internal whitespace
is preserved), and location and term are passed through unmodified. -/
theorem c7_category_location (token url user text : String) (q : Values)
    (hh : lowerStr (trimSpace text) ≠ "help")
    (hq : parseQueryGo (trimSpace text) = .ok q)
    (hr : ¬ effRadiusMi q > 24)
    (hl : getValue q "location" ≠ "")
    (hc : getValue q "category" ≠ "") :
    parseParamsText token url user text = .ok
      { token := token, responseURL := url, userName := user,
        location := getValue q "location",
        category := String.mk ((getValue q "category").data.map Char.toLower),
        searchTerm := getValue q "term",
        radius := milesToMeters (effRadiusMi q) } :=
  parseParamsText_ok token url user text q hh hq hr hl hc

/-- Claim C7, witness: category=Pizza with location=los angeles,ca parses
to category "pizza" and unchanged location "los angeles,ca". -/
theorem c7_witness :
    parseParamsText "" "" "" "category=Pizza&location=los angeles,ca" = .ok
      { token := "", responseURL := "", userName := "",
        location := "los angeles,ca", category := "pizza", searchTerm := "",
        radius := milesToMeters
          (effRadiusMi [("category", "Pizza"), ("location", "los angeles,ca")]) } :=
  c7_category_location "" "" "" "category=Pizza&location=los angeles,ca"
    [("category", "Pizza"), ("location", "los angeles,ca")]
    (by decide) (by with_unfolding_all rfl)
    (of_decide_eq_true (by with_unfolding_all rfl)) (by decide) (by decide)

/-- Claim C8.  The miles-to-meters conversion of `parseParams` is monotone,
is by definition the division by 0.00062137 truncated toward zero, and
sends 5 miles to 8046. -/
theorem c8_conversion :
    (∀ a b : Rat, a ≤ b → milesToMeters a ≤ milesToMeters b) ∧
    (∀ m : Rat, milesToMeters m = ratTrunc (m / milesFactor)) ∧
    milesToMeters 5 = 8046 := by
  refine ⟨?_, fun m => rfl, by with_unfolding_all rfl⟩
  intro a b h
  unfold milesToMeters
  apply ratTrunc_mono
  have hf : (0 : Rat) ≤ milesFactor := by norm_num [milesFactor]
  exact div_le_div_of_nonneg_right h hf

/-- Claim C8, witness: monotonicity applied at 1 ≤ 2, and the 5-mile
conversion evaluated. -/
theorem c8_witness : milesToMeters 1 ≤ milesToMeters 2 ∧ milesToMeters 5 = 8046 :=
  ⟨c8_conversion.1 1 2 (of_decide_eq_true (by with_unfolding_all rfl)),
   c8_conversion.2.2⟩

/-- Claim C9.  When the decoded request parses but its token differs from
the configured secret, the handler returns before the search call: no Yelp
call, no publish, no explicit status and no response body at all. -/
theorem c9_unauthorized (inp : HandlerInput) (bodyStr : String) (vals : Values) (p : Params)
    (hm : inp.method ≠ "OPTIONS")
    (hb : inp.body = some bodyStr)
    (hq : parseQueryGo bodyStr = .ok vals)
    (hp : parseParams vals = .ok p)
    (ht : p.token ≠ inp.slackToken) :
    Yelp inp = { status := none, body := [], searchCalled := false, published := [] } := by
  simp [Yelp, hm, hb, hq, hp, ht]

/-- Claim C9, witness: a concrete request with token "bad" against secret
"good" is dropped with no calls and no writes (the inner ampersand of the
text is form-encoded as %26 in the outer body). -/
theorem c9_witness :
    Yelp { method := "POST",
           body := some "token=bad&response_url=U&text=category=a%26location=b",
           slackToken := "good", searchResult := .ok [], publishOk := true } =
      { status := none, body := [], searchCalled := false, published := [] } :=
  c9_unauthorized
    { method := "POST",
      body := some "token=bad&response_url=U&text=category=a%26location=b",
      slackToken := "good", searchResult := .ok [], publishOk := true }
    "token=bad&response_url=U&text=category=a%26location=b"
    [("token", "bad"), ("response_url", "U"), ("text", "category=a&location=b")]
    { token := "bad", responseURL := "U", location := "b", category := "a",
      radius := milesToMeters 5 }
    (by decide) rfl (by with_unfolding_all rfl) (by with_unfolding_all rfl) (by decide)

/-- Claim C10.  No lower bound is enforced on the radius: any numeric
radius at most 24 — zero and negative values included — passes validation,
and the meter value handed to the search request can be zero or negative;
radius -5 yields -8046 meters, which `getYelpResults` puts into the radius
query parameter. -/
theorem c10_radius_unbounded :
    (∀ (token url user text : String) (q : Values),
      lowerStr (trimSpace text) ≠ "help" →
      parseQueryGo (trimSpace text) = .ok q →
      effRadiusMi q ≤ 24 →
      getValue q "location" ≠ "" →
      getValue q "category" ≠ "" →
      parseParamsText token url user text = .ok
        { token := token, responseURL := url, userName := user,
          location := getValue q "location",
          category := lowerStr (getValue q "category"),
          searchTerm := getValue q "term",
          radius := milesToMeters (effRadiusMi q) }) ∧
    (parseParams [("text", "category=a&location=b&radius=-5")]).map Params.radius =
      .ok (-8046) ∧
    (parseParams [("text", "category=a&location=b&radius=0")]).map Params.radius =
      .ok 0 ∧
    (-8046 : Int) < 0 ∧
    (∀ p : Params, ("radius", toString p.radius) ∈ yelpQueryParams p) := by
  refine ⟨?_, by with_unfolding_all rfl, by with_unfolding_all rfl, by decide, ?_⟩
  · intro token url user text q hh hq hr hl hc
    exact parseParamsText_ok token url user text q hh hq (not_lt.mpr hr) hl hc
  · intro p
    simp [yelpQueryParams]

/-- Claim C10, witness: radius -5 passes validation and becomes -8046. -/
theorem c10_witness :
    parseParamsText "" "" "" "category=a&location=b&radius=-5" = .ok
      { token := "", responseURL := "", userName := "",
        location := "b", category := "a", searchTerm := "",
        radius := milesToMeters
          (effRadiusMi [("category", "a"), ("location", "b"), ("radius", "-5")]) } :=
  c10_radius_unbounded.1 "" "" "" "category=a&location=b&radius=-5"
    [("category", "a"), ("location", "b"), ("radius", "-5")]
    (by decide) (by with_unfolding_all rfl)
    (of_decide_eq_true (by with_unfolding_all rfl)) (by decide) (by decide)

end Hi5
